import Mathlib

/-!
# Verification of the kampagnen-pulse product-data pipeline

A shallow embedding, in Lean 4, of the product data aggregation and
recommendation engine of `src/hooks/useProductData.ts` (the current
version of the hook, i.e. the second document in that file): column
resolution over loosely structured spreadsheet rows, base-product
extraction, aggregation by base article id, stock classification, the
SEO recommendation rules, the ROAS model, the per-shop analytics, and
the fetch orchestrator's fallback behaviour.

Modelling conventions:
* JavaScript numbers are modelled as rationals (`ℚ`).  `NaN`/`Infinity`
  are not representable; the only place the source can produce them is
  `x / 0` inside the average computations, where the JS code recovers
  with `|| 0` and Lean's `x / 0 = 0` convention agrees, and `Number()`
  of a non-numeric string, which no verified statement exercises.
* Raw spreadsheet rows are association lists `List (String × JsValue)`
  in key iteration order (JS object keys are unique, insertion ordered).
* `Array.prototype.sort` (stable since ES2019) is modelled by a stable
  insertion sort; a stable sort under a total comparator has a unique
  result, so this is extensionally faithful.
* Host-dependent pieces are omitted: `lastUpdated : Date`, the
  `improvements` list (built from `Math.random()`), display strings that
  interpolate locale formatted numbers (`toFixed`, `toLocaleString`) —
  for suggestion impacts the numeric content is kept in `impactValue` —
  and the optional date range filter (`parseISO`/`isWithinInterval`
  over host dates); all verified statements quantify over arbitrary row
  lists, which coincides with the `dateRange = undefined` path where
  the filtered rows are all rows.
-/

/-- A raw spreadsheet cell value: the source type `string | number`. -/
inductive JsValue where
  | str : String → JsValue
  | num : ℚ → JsValue
deriving DecidableEq

/-- A raw spreadsheet row: column label to value, in key iteration order. -/
abbrev RawProductRow := List (String × JsValue)

/-- JS property access `row[key]`: `none` models `undefined`. -/
def jsGet (row : RawProductRow) (key : String) : Option JsValue :=
  (row.find? (fun kv => kv.1 = key)).map (fun kv => kv.2)

/-- JS truthiness of a cell value: `""` and `0` are falsy.
(`NaN` is falsy in JS but is not representable in the `ℚ` model.) -/
def jsTruthy : JsValue → Bool
  | .str s => decide (s ≠ "")
  | .num q => decide (q ≠ 0)

/-- JS `a || b` where `a` may be `undefined` and `b` is always defined. -/
def jsOrDefault (a : Option JsValue) (b : JsValue) : JsValue :=
  match a with
  | some v => if jsTruthy v then v else b
  | none => b

/-- JS `a || b` on two possibly-undefined values (used for `row[k1] || row[k2]`). -/
def jsOrOpt (a b : Option JsValue) : Option JsValue :=
  match a with
  | some v => if jsTruthy v then some v else b
  | none => b

/-- JS `a || b` on strings. -/
def strOr (a b : String) : String :=
  if a = "" then b else a

/-- Strip leading and trailing whitespace from a character list. -/
def trimChars (cs : List Char) : List Char :=
  ((cs.dropWhile Char.isWhitespace).reverse.dropWhile Char.isWhitespace).reverse

/-- JS `String.prototype.trim` (kernel-computable list version). -/
def jsTrim (s : String) : String :=
  (trimChars s.toList).asString

/-- Accumulate decimal digits; `none` if a non-digit occurs. -/
def digitsToNat? (acc : ℕ) : List Char → Option ℕ
  | [] => some acc
  | c :: cs => if c.isDigit then digitsToNat? (acc * 10 + (c.toNat - 48)) cs else none

/-- Split a character list at the first `.` (integer part, fraction part). -/
def splitAtDot (cs : List Char) : List Char × Option (List Char) :=
  match cs.findIdx? (fun c => c = '.') with
  | none => (cs, none)
  | some i => (cs.take i, some (cs.drop (i + 1)))

/-- JS `Number()` applied to a string: trims whitespace, `""` is `0`, then a
signed decimal numeral.  Strings that JS maps to `NaN` (and the exotic
exponent/hex/`Infinity` forms) are mapped to `0` here: `NaN` is not
representable in `ℚ` and no verified statement exercises such a cell. -/
def parseJsNumber (s : String) : ℚ :=
  let t := jsTrim s
  if t = "" then 0
  else
    let signAndDigits : Bool × List Char :=
      match t.toList with
      | '-' :: rest => (true, rest)
      | '+' :: rest => (false, rest)
      | cs => (false, cs)
    let neg := signAndDigits.1
    let cs := signAndDigits.2
    let parts := splitAtDot cs
    let value : Option ℚ :=
      match parts.2 with
      | none =>
          if parts.1 = [] then none
          else (digitsToNat? 0 parts.1).map (fun n => (n : ℚ))
      | some fp =>
          if parts.1 = [] ∧ fp = [] then none
          else
            match digitsToNat? 0 parts.1, digitsToNat? 0 fp with
            | some ip, some fn => some ((ip : ℚ) + (fn : ℚ) / (10 : ℚ) ^ fp.length)
            | _, _ => none
    match value with
    | some q => if neg then -q else q
    | none => 0

/-- JS `String()` of a number.  Faithful for integers; the JS double
formatting of non-integral values is not modelled (no verified statement
inspects `String()` of a non-integral number). -/
def ratToJsString (q : ℚ) : String :=
  if q.den = 1 then
    (if q.num < 0 then "-" ++ Nat.repr q.num.natAbs else Nat.repr q.num.natAbs)
  else
    (if q.num < 0 then "-" else "") ++ Nat.repr q.num.natAbs ++ "/" ++ Nat.repr q.den

/-- JS `String()` of a cell value. -/
def jsString : JsValue → String
  | .str s => s
  | .num q => ratToJsString q

/-- JS `Number()` of a cell value. -/
def jsNumber : JsValue → ℚ
  | .num q => q
  | .str s => parseJsNumber s

/-- JS `Math.round`: half-up rounding, `Math.round x = ⌊x + 0.5⌋`. -/
def jsRound (q : ℚ) : ℤ :=
  (q + 1 / 2).floor

/-- `toLowerCase` on one character: ASCII, plus the German capitals that can
occur in this data's column labels.  Full Unicode case mapping is not
modelled (no verified statement needs more). -/
def jsCharLower (c : Char) : Char :=
  if c = 'Ä' then 'ä'
  else if c = 'Ö' then 'ö'
  else if c = 'Ü' then 'ü'
  else c.toLower

/-- The character class of the source regex `[^a-z0-9äöüß_]` (kept characters). -/
def isKeyChar (c : Char) : Bool :=
  ('a' ≤ c && c ≤ 'z') || ('0' ≤ c && c ≤ '9') ||
    c = 'ä' || c = 'ö' || c = 'ü' || c = 'ß' || c = '_'

/-- `normalizeKey` from the source: lower-case, trim, then drop every
character outside `[a-z0-9äöüß_]`.  (The `trim` is kept for fidelity even
though the character filter already removes whitespace.) -/
def normalizeKey (key : String) : String :=
  ((jsTrim (String.mk (key.toList.map jsCharLower))).toList.filter isKeyChar).asString

/-- Does `p` occur as a contiguous run inside the character list? -/
def occursIn (p : List Char) : List Char → Bool
  | [] => p.isEmpty
  | c :: rest => p.isPrefixOf (c :: rest) || occursIn p rest

/-- Substring containment, JS `String.prototype.includes`. -/
def strIncludes (s pattern : String) : Bool :=
  occursIn pattern.toList s.toList

/-- The inner pattern loop of `findColumn`: does some pattern occur in the
normalized key? -/
def keyMatches (patterns : List String) (key : String) : Bool :=
  patterns.any (fun p => strIncludes (normalizeKey key) p)

/-- `findColumn` from the source: scan the row's keys in iteration order and
return the value of the first key whose normalized form contains one of the
patterns as a substring; `none` models the `undefined` fall-through. -/
def findColumn (row : RawProductRow) (patterns : List String) : Option JsValue :=
  match row with
  | [] => none
  | kv :: rest => if keyMatches patterns kv.1 then some kv.2 else findColumn rest patterns

/-- The three stock health states. -/
inductive StockStatus where
  | healthy
  | warning
  | critical
deriving DecidableEq

/-- `getStockStatus` from the source. -/
def getStockStatus (available : ℚ) : StockStatus :=
  if 10 < available then .healthy
  else if 1 ≤ available then .warning
  else .critical

/-- `extractArtikelBasis` from the source: everything before the first `-`,
guarded by the dash index being strictly positive; trimmed. -/
def extractArtikelBasis (artikelnummer : String) : String :=
  if artikelnummer = "" then ""
  else
    match artikelnummer.toList.findIdx? (fun c => c = '-') with
    | some i =>
        if 0 < i then jsTrim ((artikelnummer.toList.take i).asString)
        else jsTrim artikelnummer
    | none => jsTrim artikelnummer

/-- `extractProduktBasis` from the source: everything before the first `-`
or `|`, with the same strictly-positive-index guard on each separator. -/
def extractProduktBasis (name : String) : String :=
  if name = "" then ""
  else
    let cs := name.toList
    let dashIdx := cs.findIdx? (fun c => c = '-')
    let pipeIdx := cs.findIdx? (fun c => c = '|')
    let cut : Option ℕ :=
      match dashIdx, pipeIdx with
      | some d, some p =>
          if 0 < d ∧ 0 < p then some (min d p)
          else if 0 < d then some d
          else if 0 < p then some p
          else none
      | some d, none => if 0 < d then some d else none
      | none, some p => if 0 < p then some p else none
      | none, none => none
    match cut with
    | some i => jsTrim ((cs.take i).asString)
    | none => jsTrim name

/-- One raw row after column resolution (the element type of `rawProducts`
inside `parseProductData`). -/
structure RawProduct where
  artikelBasis : String
  produktBasis : String
  artikelnummer : String
  name : String
  unitsSold : ℚ
  revenue : ℚ
  stockOnHand : ℚ
  inOrders : ℚ
  available : ℚ
  salesChannel : String
deriving DecidableEq

/-- The row-resolution step of `parseProductData` (the body of the
`filteredRows.map` callback): direct base columns first, then extraction
from the original columns, then the numeric fields with their pattern
lists and defaults. -/
def resolveRow (row : RawProductRow) : RawProduct :=
  let artikelBasisDirect :=
    jsTrim (jsString (jsOrDefault (jsOrOpt (jsGet row ("Artikel_Basis")) (jsGet row ("ArtikelBasis")))
      (.str (""))))
  let produktBasisDirect :=
    jsTrim (jsString (jsOrDefault (jsOrOpt (jsGet row ("Produkt_Basis")) (jsGet row ("ProduktBasis")))
      (.str (""))))
  let artikelnummer :=
    jsTrim (jsString (jsOrDefault (findColumn row ["artikelnummer", "artikelnr", "sku", "artnum"])
      (.str (""))))
  let name :=
    jsTrim (jsString (((jsGet row ("Bezeichnung")).orElse
      (fun _ => findColumn row ["bezeichnung", "produktname", "artikelname", "name", "product"])).getD
      (.str (""))))
  let artikelBasis := strOr artikelBasisDirect (extractArtikelBasis artikelnummer)
  let produktBasis := strOr (strOr produktBasisDirect (extractProduktBasis name)) name
  let unitsSold := jsNumber (jsOrDefault
    (findColumn row ["menge", "sold", "units", "quantity", "verkauft", "qty", "anzahl"]) (.num 0))
  let revenue := jsNumber (jsOrDefault
    (findColumn row ["total", "revenue", "umsatz", "sales", "erlös", "euro", "betrag"]) (.num 0))
  let stockOnHand := jsNumber (jsOrDefault
    (findColumn row ["auflager", "lager", "stock", "bestand", "lagerbestand"]) (.num 0))
  let inOrders := jsNumber (jsOrDefault
    (findColumn row ["inaufträgen", "inauftragen", "reserviert", "orders", "aufträge"]) (.num 0))
  let available :=
    match findColumn row ["verfügbar", "verfugbar", "available", "frei"] with
    | some v => if jsTruthy v then jsNumber v else stockOnHand - inOrders
    | none => stockOnHand - inOrders
  let salesChannel := jsString (jsOrDefault
    (findColumn row ["shopfix", "shop", "channel", "kanal", "plattform"]) (.str ("")))
  { artikelBasis, produktBasis, artikelnummer, name, unitsSold, revenue,
    stockOnHand, inOrders, available, salesChannel }

/-- The resolved-and-filtered rows of `parseProductData`: resolution followed
by the non-empty `artikelBasis`/`produktBasis` filter. -/
def rawProducts (rows : List RawProductRow) : List RawProduct :=
  (rows.map resolveRow).filter
    (fun p => decide (p.artikelBasis ≠ "") && decide (p.produktBasis ≠ ""))

/-- One value of the `aggregatedMap` in `parseProductData`. -/
structure AggGroup where
  artikelBasis : String
  produktBasis : String
  unitsSold : ℚ
  revenue : ℚ
  stockOnHand : ℚ
  inOrders : ℚ
  available : ℚ
  salesChannel : String
  variationsCount : ℕ
deriving DecidableEq

/-- The map entry created on first sight of a base id (`aggregatedMap.set`). -/
def mkGroup (p : RawProduct) : AggGroup :=
  { artikelBasis := p.artikelBasis
    produktBasis := p.produktBasis
    unitsSold := p.unitsSold
    revenue := p.revenue
    stockOnHand := p.stockOnHand
    inOrders := p.inOrders
    available := p.available
    salesChannel := p.salesChannel
    variationsCount := 1 }

/-- Folding one more variation into an existing entry: sums the numeric
fields and bumps `variationsCount`; `produktBasis` and `salesChannel` are
left untouched, exactly as in the source's update branch. -/
def addTo (g : AggGroup) (p : RawProduct) : AggGroup :=
  { g with
    unitsSold := g.unitsSold + p.unitsSold
    revenue := g.revenue + p.revenue
    stockOnHand := g.stockOnHand + p.stockOnHand
    inOrders := g.inOrders + p.inOrders
    available := g.available + p.available
    variationsCount := g.variationsCount + 1 }

/-- Inserting one resolved row into the aggregation state.  A JS `Map` keeps
unique keys in first-insertion order, so the state is a key-unique list:
update the (unique) matching entry in place, or append a fresh entry. -/
def insertRaw (acc : List AggGroup) (p : RawProduct) : List AggGroup :=
  match acc with
  | [] => [mkGroup p]
  | g :: rest =>
      if g.artikelBasis = p.artikelBasis then addTo g p :: rest
      else g :: insertRaw rest p

/-- The whole `for (const product of rawProducts)` aggregation loop, ending
with `Array.from(aggregatedMap.values())` (insertion order). -/
def aggregateRaw (rp : List RawProduct) : List AggGroup :=
  rp.foldl insertRaw []

/-- An aggregated base product (the interface `ProductData` of the source). -/
structure ProductData where
  artikelBasis : String
  produktBasis : String
  unitsSold : ℚ
  revenue : ℚ
  stockOnHand : ℚ
  inOrders : ℚ
  available : ℚ
  stockStatus : StockStatus
  salesChannel : String
  variationsCount : ℕ
  avgPrice : ℚ
deriving DecidableEq

/-- The final per-group projection of `parseProductData`. -/
def toProductData (g : AggGroup) : ProductData :=
  { artikelBasis := g.artikelBasis
    produktBasis := g.produktBasis
    unitsSold := g.unitsSold
    revenue := g.revenue
    stockOnHand := g.stockOnHand
    inOrders := g.inOrders
    available := g.available
    stockStatus := getStockStatus g.available
    salesChannel := g.salesChannel
    variationsCount := g.variationsCount
    avgPrice := if 0 < g.unitsSold then g.revenue / g.unitsSold else 0 }

/-- The `products` list of `parseProductData`: aggregate, drop all-zero noise
groups (`revenue > 0 || unitsSold > 0 || stockOnHand > 0`), project. -/
def aggregatedProducts (rows : List RawProductRow) : List ProductData :=
  (((aggregateRaw (rawProducts rows)).filter
    (fun g => decide (0 < g.revenue) || decide (0 < g.unitsSold) || decide (0 < g.stockOnHand))).map
    toProductData)

/-- Stable insertion into a sorted list (insert before the first element the
new one compares `le` to, i.e. before equal elements of later input rank). -/
def stableInsert (le : α → α → Bool) (a : α) : List α → List α
  | [] => [a]
  | b :: rest => if le a b then a :: b :: rest else b :: stableInsert le a rest

/-- Model of `Array.prototype.sort` with a total comparator (stable since
ES2019): a stable sort's output is unique, so insertion sort is faithful. -/
def jsSortBy (le : α → α → Bool) : List α → List α
  | [] => []
  | a :: rest => stableInsert le a (jsSortBy le rest)

/-- Recommendation / suggestion / alert priorities. -/
inductive Priority where
  | high
  | medium
  | low
deriving DecidableEq

/-- The SEO recommendation kinds. -/
inductive SEOType where
  | opportunity
  | waste
  | optimize
  | ads_invest
  | ads_reduce
deriving DecidableEq

/-- An SEO recommendation.  The `details` field of the source is a display
string interpolating locale-formatted numbers and is not modelled. -/
structure SEORecommendation where
  artikelBasis : String
  produktBasis : String
  type : SEOType
  priority : Priority
  suggestion : String
deriving DecidableEq

/-- The (up to three) opportunity rules applied to one product, in source
order: ads-invest, SEO opportunity, bundle candidate. -/
def seoOppsFor (avgRevenue avgUnits : ℚ) (p : ProductData) : List SEORecommendation :=
  (if avgRevenue * (3 / 2) < p.revenue ∧ p.stockStatus = .healthy then
    [{ artikelBasis := p.artikelBasis, produktBasis := p.produktBasis,
       type := .ads_invest, priority := .high,
       suggestion := "Mehr in Google Ads investieren" }]
   else []) ++
  (if p.revenue < avgRevenue * (3 / 10) ∧ 10 < p.available then
    [{ artikelBasis := p.artikelBasis, produktBasis := p.produktBasis,
       type := .opportunity, priority := .medium,
       suggestion := "SEO-Optimierung & Preisanpassung" }]
   else []) ++
  (if p.unitsSold < avgUnits * (1 / 5) ∧ 5 < p.available then
    [{ artikelBasis := p.artikelBasis, produktBasis := p.produktBasis,
       type := .optimize, priority := .low,
       suggestion := "Bundle oder Cross-Sell Möglichkeit" }]
   else [])

/-- The two waste rules applied to one product, in source order: restock
waste, ads-reduce waste. -/
def seoWasteFor (avgRevenue avgUnits : ℚ) (p : ProductData) : List SEORecommendation :=
  (if p.stockStatus = .critical ∧ avgUnits < p.unitsSold then
    [{ artikelBasis := p.artikelBasis, produktBasis := p.produktBasis,
       type := .waste, priority := .high,
       suggestion := "Dringend Nachbestellen!" }]
   else []) ++
  (if p.revenue < avgRevenue * (1 / 10) ∧ p.unitsSold < avgUnits * (1 / 10) then
    [{ artikelBasis := p.artikelBasis, produktBasis := p.produktBasis,
       type := .ads_reduce, priority := .medium,
       suggestion := "Ads-Budget reduzieren" }]
   else [])

/-- `generateSEORecommendations` from the source.  The `|| 0` guard on the
averages only fires at `0 / 0` (empty product list), where Lean's `0 / 0 = 0`
convention agrees. -/
def generateSEORecommendations (products : List ProductData) :
    List SEORecommendation × List SEORecommendation :=
  let avgRevenue := ((products.map (fun p => p.revenue)).sum) / (products.length : ℚ)
  let avgUnits := ((products.map (fun p => p.unitsSold)).sum) / (products.length : ℚ)
  ((products.map (seoOppsFor avgRevenue avgUnits)).flatten,
   (products.map (seoWasteFor avgRevenue avgUnits)).flatten)

/-- The ROAS suggestion kinds. -/
inductive ROASSuggestionType where
  | increase_budget
  | decrease_budget
  | pause_ads
  | optimize_listing
  | bundle
  | restock
deriving DecidableEq

/-- A ROAS suggestion.  The source's `impact` display string carries one
locale-formatted rounded number (none for `bundle`); `impactValue` models
that numeric content, the locale formatting around it is not modelled. -/
structure ROASSuggestion where
  type : ROASSuggestionType
  priority : Priority
  product : String
  message : String
  impactValue : Option ℤ
deriving DecidableEq

/-- The ROAS alert kinds. -/
inductive ROASAlertType where
  | critical
  | warning
  | info
deriving DecidableEq

/-- A ROAS alert.  The `message`/`product` display strings interpolate
`toFixed` output and are not modelled. -/
structure ROASAlert where
  type : ROASAlertType
deriving DecidableEq

/-- The increase-budget suggestion pushed for a healthy top-3 profitable
product: impact is `Math.round(revenue * 0.2)`. -/
def mkIncreaseSuggestion (p : ProductData) : ROASSuggestion :=
  { type := .increase_budget
    priority := .high
    product := p.artikelBasis ++ " - " ++ p.produktBasis
    message := "Budget für \"" ++ p.produktBasis ++ "\" erhöhen - hohe Nachfrage und guter Bestand"
    impactValue := some (jsRound (p.revenue * (2 / 10))) }

/-- The decrease-budget suggestion: impact is `Math.round(revenue * 0.15)`. -/
def mkDecreaseSuggestion (p : ProductData) : ROASSuggestion :=
  { type := .decrease_budget
    priority := .medium
    product := p.artikelBasis ++ " - " ++ p.produktBasis
    message := "Budget für \"" ++ p.produktBasis ++ "\" reduzieren - geringer ROI"
    impactValue := some (jsRound (p.revenue * (15 / 100))) }

/-- The restock suggestion: impact is `Math.round(revenue * 0.5)`. -/
def mkRestockSuggestion (p : ProductData) : ROASSuggestion :=
  { type := .restock
    priority := .high
    product := p.artikelBasis ++ " - " ++ p.produktBasis
    message := "\"" ++ p.produktBasis ++ "\" dringend nachbestellen - Verkäufe bei 0 Bestand"
    impactValue := some (jsRound (p.revenue * (1 / 2))) }

/-- The bundle suggestion: its impact string carries no number. -/
def mkBundleSuggestion (p : ProductData) : ROASSuggestion :=
  { type := .bundle
    priority := .low
    product := p.artikelBasis ++ " - " ++ p.produktBasis
    message := "\"" ++ p.produktBasis ++ "\" als Bundle anbieten - hoher Bestand, wenig Verkäufe"
    impactValue := none }

/-- The ROAS summary (interface `ROASData`).  The `improvements` list of the
source is built from `Math.random()` and is not representable in a pure
model; no claim mentions it. -/
structure ROASData where
  totalAdSpend : ℚ
  totalRevenue : ℚ
  overallROAS : ℚ
  profitableProducts : List ProductData
  unprofitableProducts : List ProductData
  topROASProducts : List ProductData
  suggestions : List ROASSuggestion
  alerts : List ROASAlert
deriving DecidableEq

/-- `generateROASData` from the source.  The `avgRevenue`/`avgUnits`
divisions carry the same `|| 0` remark as in `generateSEORecommendations`. -/
def generateROASData (products : List ProductData) : ROASData :=
  let totalRevenue := (products.map (fun p => p.revenue)).sum
  let estimatedAdSpend := totalRevenue * (15 / 100)
  let overallROAS := if 0 < estimatedAdSpend then totalRevenue / estimatedAdSpend else 0
  let avgRevenue := totalRevenue / (products.length : ℚ)
  let avgUnits := ((products.map (fun p => p.unitsSold)).sum) / (products.length : ℚ)
  let profitableProducts :=
    (jsSortBy (fun a b => decide (b.revenue ≤ a.revenue))
      (products.filter (fun p => decide (avgRevenue < p.revenue)))).take 10
  let unprofitableProducts :=
    (jsSortBy (fun a b => decide (a.revenue ≤ b.revenue))
      (products.filter (fun p =>
        decide (p.revenue < avgRevenue * (3 / 10)) && decide (0 < p.revenue)))).take 10
  let topROASProducts :=
    (jsSortBy (fun a b => decide (b.revenue ≤ a.revenue))
      (products.filter (fun p =>
        decide (avgRevenue < p.revenue) && !(p.stockStatus == .critical)))).take 5
  let needsRestock := products.filter
    (fun p => (p.stockStatus == .critical) && decide (avgUnits < p.unitsSold))
  let lowSellers := products.filter
    (fun p => decide (p.unitsSold < avgUnits * (1 / 5)) && decide (10 < p.available))
  let suggestions :=
    (((profitableProducts.take 3).filter (fun p => p.stockStatus == .healthy)).map
      mkIncreaseSuggestion) ++
    ((unprofitableProducts.take 3).map mkDecreaseSuggestion) ++
    ((needsRestock.take 3).map mkRestockSuggestion) ++
    ((lowSellers.take 2).map mkBundleSuggestion)
  let criticalCount := (products.filter (fun p => p.stockStatus == .critical)).length
  let alerts :=
    (if overallROAS < 3 then [ROASAlert.mk .warning]
     else if 4 ≤ overallROAS then [ROASAlert.mk .info]
     else []) ++
    (if 0 < criticalCount then [ROASAlert.mk .critical] else []) ++
    (if (products.length : ℚ) * (3 / 10) < (unprofitableProducts.length : ℚ) then
      [ROASAlert.mk .warning]
     else [])
  { totalAdSpend := estimatedAdSpend
    totalRevenue := totalRevenue
    overallROAS := overallROAS
    profitableProducts := profitableProducts
    unprofitableProducts := unprofitableProducts
    topROASProducts := topROASProducts
    suggestions := suggestions
    alerts := alerts }

/-- Per-shop analytics entry (interface `ShopAnalytics`). -/
structure ShopAnalytics where
  shopName : String
  totalRevenue : ℚ
  totalUnitsSold : ℚ
  productCount : ℕ
  avgRevenue : ℚ
  percentageOfTotal : ℚ
deriving DecidableEq

/-- One value of the `shopMap` in `generateShopAnalytics`; `products` models
the JS `Set` of base ids as a duplicate-free insertion-ordered list. -/
structure ShopGroup where
  shopName : String
  revenue : ℚ
  units : ℚ
  products : List String
deriving DecidableEq

/-- The per-row column resolution of `generateShopAnalytics`. -/
structure ShopRowInfo where
  shopName : String
  revenue : ℚ
  units : ℚ
  artikelBasis : String
deriving DecidableEq

/-- The body of the shop aggregation loop's column resolution: channel label
(defaulting the empty label to eBay), revenue, units, and the base id. -/
def resolveShopRow (row : RawProductRow) : ShopRowInfo :=
  let shopRaw := jsTrim (jsString (jsOrDefault
    (findColumn row ["shopfix", "shop", "channel", "kanal", "plattform"]) (.str (""))))
  let shopName := if shopRaw = "" then "eBay" else shopRaw
  let revenue := jsNumber (jsOrDefault
    (findColumn row ["total", "revenue", "umsatz", "sales", "erlös", "euro", "betrag"]) (.num 0))
  let units := jsNumber (jsOrDefault
    (findColumn row ["menge", "sold", "units", "quantity", "verkauft", "qty", "anzahl"]) (.num 0))
  let artikelBasis := strOr
    (jsTrim (jsString (jsOrDefault (jsOrOpt (jsGet row ("Artikel_Basis")) (jsGet row ("ArtikelBasis")))
      (.str ("")))))
    (extractArtikelBasis (jsString (jsOrDefault
      (findColumn row ["artikelnummer", "artikelnr", "sku", "artnum"]) (.str ("")))))
  { shopName, revenue, units, artikelBasis }

/-- Folding one row into a shop entry: add revenue and units; add the base id
to the product set when it is truthy and not yet present. -/
def shopAddRow (g : ShopGroup) (r : ShopRowInfo) : ShopGroup :=
  { g with
    revenue := g.revenue + r.revenue
    units := g.units + r.units
    products :=
      if r.artikelBasis = "" then g.products
      else if g.products.contains r.artikelBasis then g.products
      else g.products ++ [r.artikelBasis] }

/-- Inserting one resolved row into the shop map (same JS `Map` discipline as
`insertRaw`: update the unique matching entry or append a fresh one). -/
def shopInsert (acc : List ShopGroup) (r : ShopRowInfo) : List ShopGroup :=
  match acc with
  | [] => [shopAddRow { shopName := r.shopName, revenue := 0, units := 0, products := [] } r]
  | g :: rest =>
      if g.shopName = r.shopName then shopAddRow g r :: rest
      else g :: shopInsert rest r

/-- The whole shop aggregation loop of `generateShopAnalytics`. -/
def shopFold (rows : List RawProductRow) : List ShopGroup :=
  rows.foldl (fun acc row => shopInsert acc (resolveShopRow row)) []

/-- `generateShopAnalytics` from the source (date-range filter absent, see
the header remarks): aggregate per shop, project, sort by revenue. -/
def generateShopAnalytics (rows : List RawProductRow) : List ShopAnalytics :=
  let groups := shopFold rows
  let totalRevenue := (groups.map (fun g => g.revenue)).sum
  jsSortBy (fun a b => decide (b.totalRevenue ≤ a.totalRevenue))
    (groups.map (fun g =>
      { shopName := g.shopName
        totalRevenue := g.revenue
        totalUnitsSold := g.units
        productCount := g.products.length
        avgRevenue := if 0 < g.products.length then g.revenue / (g.products.length : ℚ) else 0
        percentageOfTotal := if 0 < totalRevenue then g.revenue / totalRevenue * 100 else 0 }))

/-- The metrics block (interface `ProductMetrics`). -/
structure ProductMetrics where
  totalProducts : ℕ
  totalRevenue : ℚ
  totalUnitsSold : ℚ
  avgPrice : ℚ
  healthyStock : ℕ
  warningStock : ℕ
  criticalStock : ℕ
deriving DecidableEq

/-- The full parse result (interface `ProductAnalyticsData`); the host-time
`lastUpdated : Date` field is omitted. -/
structure ProductAnalyticsData where
  products : List ProductData
  metrics : ProductMetrics
  topProducts : List ProductData
  slowProducts : List ProductData
  criticalAlerts : List ProductData
  seoOpportunities : List SEORecommendation
  seoWaste : List SEORecommendation
  roasData : ROASData
  shopAnalytics : List ShopAnalytics
deriving DecidableEq

/-- The all-zero `defaultData` value returned for missing or empty input. -/
def defaultAnalyticsData : ProductAnalyticsData :=
  { products := []
    metrics :=
      { totalProducts := 0, totalRevenue := 0, totalUnitsSold := 0, avgPrice := 0,
        healthyStock := 0, warningStock := 0, criticalStock := 0 }
    topProducts := []
    slowProducts := []
    criticalAlerts := []
    seoOpportunities := []
    seoWaste := []
    roasData :=
      { totalAdSpend := 0, totalRevenue := 0, overallROAS := 0,
        profitableProducts := [], unprofitableProducts := [], topROASProducts := [],
        suggestions := [], alerts := [] }
    shopAnalytics := [] }

/-- `parseProductData` from the source (date-range filter absent, see the
header remarks).  The input is `Option`al to mirror the `!rows` guard:
`none` models a null/undefined `rows` argument. -/
def parseProductData (rowsOpt : Option (List RawProductRow)) : ProductAnalyticsData :=
  match rowsOpt with
  | none => defaultAnalyticsData
  | some rows =>
    if rows.isEmpty then defaultAnalyticsData
    else
      let products := aggregatedProducts rows
      let totalProducts := products.length
      let totalRevenue := (products.map (fun p => p.revenue)).sum
      let totalUnitsSold := (products.map (fun p => p.unitsSold)).sum
      let avgPrice := if 0 < totalUnitsSold then totalRevenue / totalUnitsSold else 0
      let healthyStock := (products.filter (fun p => p.stockStatus == .healthy)).length
      let warningStock := (products.filter (fun p => p.stockStatus == .warning)).length
      let criticalStock := (products.filter (fun p => p.stockStatus == .critical)).length
      let sortedByRevenue := jsSortBy (fun a b => decide (b.revenue ≤ a.revenue)) products
      let topProducts := sortedByRevenue.take 5
      let slowProducts :=
        (jsSortBy (fun a b => decide (a.unitsSold ≤ b.unitsSold))
          (products.filter (fun p => decide (0 < p.revenue) || decide (0 < p.unitsSold)))).take 5
      let criticalAlerts := products.filter
        (fun p => (p.stockStatus == .critical) && decide (0 < p.unitsSold))
      let seo := generateSEORecommendations products
      { products := products
        metrics :=
          { totalProducts := totalProducts, totalRevenue := totalRevenue,
            totalUnitsSold := totalUnitsSold, avgPrice := avgPrice,
            healthyStock := healthyStock, warningStock := warningStock,
            criticalStock := criticalStock }
        topProducts := topProducts
        slowProducts := slowProducts
        criticalAlerts := criticalAlerts
        seoOpportunities := seo.1
        seoWaste := seo.2
        roasData := generateROASData products
        shopAnalytics := generateShopAnalytics rows }

/-- Outcome of one HTTP request in the fetch orchestrator: rejected promise
(network error / timeout), a non-ok response, or an ok response whose JSON
body has a `success` flag and an optional `rows` list (`none` models a
missing/null `rows` field; `some []` is truthy in JS, like any array). -/
inductive FetchOutcome where
  | reject
  | notOk
  | ok (success : Bool) (rows : Option (List RawProductRow))
deriving DecidableEq

/-- Observable effects of one run of the `fetchData` try/catch body:
whether the secondary (no-sheet-parameter) endpoint was requested, whether
the fetch-failure error string was surfaced via `setError`, and which rows
(if any) were handed to `setRawData` from a fetch response. -/
structure FetchEffects where
  fallbackAttempted : Bool
  errorSurfaced : Bool
  rowsDelivered : Option (List RawProductRow)
deriving DecidableEq

/-- The try/catch body of `fetchData` (source lines 876-915), as a function
of the primary and fallback request outcomes.  The cache pre-check and the
serving of stale cached rows inside the catch block are orthogonal to the
surfaced error and are not modelled; `response.json()` rejection is subsumed
by `notOk` (both throw before any fallback request). -/
def fetchData (primary fallback : FetchOutcome) : FetchEffects :=
  match primary with
  | .reject => { fallbackAttempted := false, errorSurfaced := true, rowsDelivered := none }
  | .notOk => { fallbackAttempted := false, errorSurfaced := true, rowsDelivered := none }
  | .ok success rows? =>
    if success then
      match rows? with
      | some rows => { fallbackAttempted := false, errorSurfaced := false, rowsDelivered := some rows }
      | none => { fallbackAttempted := false, errorSurfaced := true, rowsDelivered := none }
    else
      match fallback with
      | .reject => { fallbackAttempted := true, errorSurfaced := true, rowsDelivered := none }
      | .notOk => { fallbackAttempted := true, errorSurfaced := true, rowsDelivered := none }
      | .ok fbSuccess fbRows? =>
        if fbSuccess then
          match fbRows? with
          | some rows =>
              { fallbackAttempted := true, errorSurfaced := false, rowsDelivered := some rows }
          | none => { fallbackAttempted := true, errorSurfaced := true, rowsDelivered := none }
        else { fallbackAttempted := true, errorSurfaced := true, rowsDelivered := none }

/-- Modelled from the spec: the claim's character class for key
normalization, `[a-z0-9_]` with no German letters (claim C5 words the
normalization as "every character outside [a-z0-9_] stripped"). -/
def specIsKeyChar (c : Char) : Bool :=
  ('a' ≤ c && c ≤ 'z') || ('0' ≤ c && c ≤ '9') || c = '_'

/-- Modelled from the spec: key normalization as the claim words it. -/
def specNormalizeKey (key : String) : String :=
  ((jsTrim (String.mk (key.toList.map jsCharLower))).toList.filter specIsKeyChar).asString

/-- Modelled from the spec: the Column Resolver as claim C5 words it — the
value of the first key (in iteration order) whose spec-normalized form
contains some pattern as a substring. -/
def findColumnSpec (row : RawProductRow) (patterns : List String) : Option JsValue :=
  (row.find? (fun kv => patterns.any (fun p => strIncludes (specNormalizeKey kv.1) p))).map
    (fun kv => kv.2)

/-- A concrete one-product set with revenue 1000 (C2's sample point). -/
def roasSampleProduct : ProductData :=
  { artikelBasis := "A", produktBasis := "P", unitsSold := 10, revenue := 1000,
    stockOnHand := 20, inOrders := 0, available := 20,
    stockStatus := StockStatus.healthy, salesChannel := "eBay",
    variationsCount := 1, avgPrice := 100 }

/-- A concrete raw row carrying only the two direct base columns; every
numeric field resolves to the default 0 (C1's noise-row input). -/
def zeroNoiseRow : RawProductRow :=
  [("Artikel_Basis", JsValue.str "A"), ("Produkt_Basis", JsValue.str "P")]

/-- Two concrete raw rows with the same base id but different channel
labels, first X then Y, and positive revenue (C3's input). -/
def channelRowX : RawProductRow :=
  [("Artikel_Basis", JsValue.str "A"), ("Produkt_Basis", JsValue.str "P"),
   ("Umsatz", JsValue.num 1), ("Shop", JsValue.str "X")]

/-- Second row of C3's input: same base id, channel Y. -/
def channelRowY : RawProductRow :=
  [("Artikel_Basis", JsValue.str "A"), ("Produkt_Basis", JsValue.str "P"),
   ("Umsatz", JsValue.num 1), ("Shop", JsValue.str "Y")]

/-- The aggregated product C3's two rows fold into: channel X (the first
row's label), revenue 2, two variations, zero stock so critical. -/
def channelProductXY : ProductData :=
  { artikelBasis := "A", produktBasis := "P", unitsSold := 0, revenue := 2,
    stockOnHand := 0, inOrders := 0, available := 0,
    stockStatus := StockStatus.critical, salesChannel := "X",
    variationsCount := 2, avgPrice := 0 }

/-- The resolved form of `channelRowX`. -/
def channelResolvedX : RawProduct :=
  { artikelBasis := "A", produktBasis := "P", artikelnummer := "", name := "",
    unitsSold := 0, revenue := 1, stockOnHand := 0, inOrders := 0, available := 0,
    salesChannel := "X" }

/-- The resolved form of `channelRowY`. -/
def channelResolvedY : RawProduct :=
  { artikelBasis := "A", produktBasis := "P", artikelnummer := "", name := "",
    unitsSold := 0, revenue := 1, stockOnHand := 0, inOrders := 0, available := 0,
    salesChannel := "Y" }

/-- A top-profitable product whose stock is only `warning` (C8's input): its
revenue 100 is far above the average once paired with `smallProduct`. -/
def warningTopProduct : ProductData :=
  { artikelBasis := "A", produktBasis := "PA", unitsSold := 1, revenue := 100,
    stockOnHand := 5, inOrders := 0, available := 5,
    stockStatus := StockStatus.warning, salesChannel := "", variationsCount := 1,
    avgPrice := 100 }

/-- A low-revenue companion product for C8's input. -/
def smallProduct : ProductData :=
  { artikelBasis := "B", produktBasis := "PB", unitsSold := 1, revenue := 10,
    stockOnHand := 50, inOrders := 0, available := 50,
    stockStatus := StockStatus.healthy, salesChannel := "", variationsCount := 1,
    avgPrice := 10 }

/-- A concrete one-row list with a single revenue column (C9's witness). -/
def shopSampleRows : List RawProductRow :=
  [[("Umsatz", JsValue.num 10)]]

/-- C6 counterexample: the claim (and spec §8) says
`extractBaseId("AB-100-red") == "AB-100"`, but the source cuts at the FIRST
dash (`indexOf('-')`), yielding `"AB"`. -/
theorem c6_counterexample : extractArtikelBasis ("AB-100-red") ≠ "AB-100" := by decide

/-- C6 (amended): the base-SKU extractor cuts at the first dash, so
`extractArtikelBasis "AB-100-red" = "AB"`; a dash-free input is returned
whole, and a leading dash (index 0) is not a split point. -/
theorem c6_extractArtikelBasis_amended :
    extractArtikelBasis ("AB-100-red") = "AB" ∧
    extractArtikelBasis ("AB") = "AB" ∧
    extractArtikelBasis ("-AB") = "-AB" := by decide

/-- C7: the stock classifier is total with exactly the three claimed bands:
`available > 10` healthy, `1 ≤ available ≤ 10` warning, `available < 1`
(negatives included) critical; and the five claimed sample points. -/
theorem c7_stock_classifier :
    (∀ a : ℚ,
      (10 < a → getStockStatus a = StockStatus.healthy) ∧
      (1 ≤ a → a ≤ 10 → getStockStatus a = StockStatus.warning) ∧
      (a < 1 → getStockStatus a = StockStatus.critical)) ∧
    getStockStatus 11 = StockStatus.healthy ∧
    getStockStatus 10 = StockStatus.warning ∧
    getStockStatus 1 = StockStatus.warning ∧
    getStockStatus 0 = StockStatus.critical ∧
    getStockStatus (-5) = StockStatus.critical := by
  constructor
  · intro a
    refine ⟨fun h => ?_, fun h1 h2 => ?_, fun h => ?_⟩
    · simp [getStockStatus, h]
    · have h10 : ¬ (10 < a) := by linarith
      simp [getStockStatus, h10, h1]
    · have h10 : ¬ (10 < a) := by linarith
      have h1 : ¬ (1 ≤ a) := by linarith
      simp [getStockStatus, h10, h1]
  · exact ⟨by decide, by decide, by decide, by decide, by decide⟩

/-- C7 witness: the classifier theorem applied at 12, 5 and 1/2. -/
theorem c7_stock_classifier_witness :
    getStockStatus 12 = StockStatus.healthy ∧
    getStockStatus 5 = StockStatus.warning ∧
    getStockStatus (1 / 2) = StockStatus.critical :=
  ⟨(c7_stock_classifier.1 12).1 (by norm_num),
   (c7_stock_classifier.1 5).2.1 (by norm_num) (by norm_num),
   (c7_stock_classifier.1 (1 / 2)).2.2 (by norm_num)⟩


/-- C2: in `generateROASData`, the ad spend is 15% of total revenue, the
overall ROAS is revenue over spend when the spend is positive and 0
otherwise; hence it is the constant 1/0.15 = 20/3 whenever revenue is
positive, is within 0.001 of 6.667 at revenue 1000 (with spend 150), and is
0 at revenue 0 with no division by zero. -/
theorem c2_roas_model (products : List ProductData) :
    (generateROASData products).totalRevenue = (products.map (fun p => p.revenue)).sum ∧
    (generateROASData products).totalAdSpend =
      (generateROASData products).totalRevenue * (15 / 100) ∧
    (0 < (generateROASData products).totalAdSpend →
      (generateROASData products).overallROAS =
        (generateROASData products).totalRevenue / (generateROASData products).totalAdSpend) ∧
    (¬ 0 < (generateROASData products).totalAdSpend →
      (generateROASData products).overallROAS = 0) ∧
    (0 < (generateROASData products).totalRevenue →
      (generateROASData products).overallROAS = 20 / 3) ∧
    ((generateROASData products).totalRevenue = 1000 →
      (generateROASData products).totalAdSpend = 150 ∧
      |(generateROASData products).overallROAS - 6667 / 1000| ≤ 1 / 1000) ∧
    ((generateROASData products).totalRevenue = 0 →
      (generateROASData products).overallROAS = 0) := by
  have hrev : (generateROASData products).totalRevenue =
      (products.map (fun p => p.revenue)).sum := rfl
  have hspend : (generateROASData products).totalAdSpend =
      (products.map (fun p => p.revenue)).sum * (15 / 100) := rfl
  have hroas : (generateROASData products).overallROAS =
      if 0 < (products.map (fun p => p.revenue)).sum * (15 / 100) then
        (products.map (fun p => p.revenue)).sum /
          ((products.map (fun p => p.revenue)).sum * (15 / 100))
      else 0 := rfl
  have hconst : 0 < (products.map (fun p => p.revenue)).sum →
      (generateROASData products).overallROAS = 20 / 3 := by
    intro hpos
    have hTne : (products.map (fun p => p.revenue)).sum ≠ 0 := ne_of_gt hpos
    have hsp : 0 < (products.map (fun p => p.revenue)).sum * (15 / 100) := by positivity
    rw [hroas, if_pos hsp, div_mul_cancel_left₀ hTne]
    norm_num
  refine ⟨hrev, by rw [hspend, hrev], ?_, ?_, ?_, ?_, ?_⟩
  · intro hpos
    rw [hspend] at hpos
    rw [hroas, hrev, hspend, if_pos hpos]
  · intro hneg
    rw [hspend] at hneg
    rw [hroas, if_neg hneg]
  · intro hpos
    rw [hrev] at hpos
    exact hconst hpos
  · intro h1000
    rw [hrev] at h1000
    constructor
    · rw [hspend, h1000]; norm_num
    · rw [hconst (by rw [h1000]; norm_num)]
      rw [show (20 : ℚ) / 3 - 6667 / 1000 = -(1 / 3000) by norm_num, abs_neg,
        abs_of_nonneg (by norm_num : (0 : ℚ) ≤ 1 / 3000)]
      norm_num
  · intro h0
    rw [hrev] at h0
    rw [hroas]
    simp only [h0]
    norm_num

/-- The sample set's total revenue evaluates to 1000. -/
theorem roasSample_totalRevenue :
    (generateROASData [roasSampleProduct]).totalRevenue = 1000 := by
  simp +decide [generateROASData, roasSampleProduct]

/-- The empty set's total revenue evaluates to 0. -/
theorem roasEmpty_totalRevenue : (generateROASData []).totalRevenue = 0 := rfl

/-- C2 witness: the ROAS theorem applied to a one-product set with revenue
1000 and to the empty set. -/
theorem c2_roas_model_witness :
    (generateROASData [roasSampleProduct]).totalAdSpend = 150 ∧
    |(generateROASData [roasSampleProduct]).overallROAS - 6667 / 1000| ≤ 1 / 1000 ∧
    (generateROASData []).overallROAS = 0 :=
  ⟨((c2_roas_model [roasSampleProduct]).2.2.2.2.2.1 roasSample_totalRevenue).1,
   ((c2_roas_model [roasSampleProduct]).2.2.2.2.2.1 roasSample_totalRevenue).2,
   (c2_roas_model []).2.2.2.2.2.2 roasEmpty_totalRevenue⟩

/-- C4 counterexample: on a non-ok primary response (a network-class error)
the source's `throw` jumps straight to the catch block — the secondary
endpoint is NOT attempted and the error is surfaced even though the fallback
endpoint would have succeeded, contradicting the claimed shared fallback
path. -/
theorem c4_counterexample :
    (fetchData FetchOutcome.notOk (FetchOutcome.ok true (some []))).fallbackAttempted = false ∧
    (fetchData FetchOutcome.notOk (FetchOutcome.ok true (some []))).errorSurfaced = true := by
  decide

/-- C4 (amended): a network error on the primary request (rejection or
non-ok response) transitions directly to the failed state without attempting
the secondary endpoint; the secondary endpoint is attempted exactly when the
primary responds ok with a falsy success flag, and in that case the
fetch-failure error is surfaced precisely unless the fallback succeeds with
a truthy success flag and a present rows list. -/
theorem c4_fetch_fallback_amended (primary fallback : FetchOutcome) :
    ((fetchData primary fallback).fallbackAttempted = true ↔
      ∃ r, primary = FetchOutcome.ok false r) ∧
    ((primary = FetchOutcome.reject ∨ primary = FetchOutcome.notOk) →
      fetchData primary fallback =
        { fallbackAttempted := false, errorSurfaced := true, rowsDelivered := none }) ∧
    (∀ r, ((fetchData (FetchOutcome.ok false r) fallback).errorSurfaced = false ↔
      ∃ rows, fallback = FetchOutcome.ok true (some rows))) := by
  have h3 : ∀ r, ((fetchData (FetchOutcome.ok false r) fallback).errorSurfaced = false ↔
      ∃ rows, fallback = FetchOutcome.ok true (some rows)) := by
    intro r
    cases fallback with
    | reject => simp [fetchData]
    | notOk => simp [fetchData]
    | ok s rows? =>
      cases s with
      | false => simp [fetchData]
      | true =>
        cases rows? with
        | none => simp [fetchData]
        | some rows => simp [fetchData]
  refine ⟨?_, ?_, h3⟩
  · cases primary with
    | reject => simp [fetchData]
    | notOk => simp [fetchData]
    | ok s rows? =>
      cases s with
      | false =>
        cases fallback with
        | reject => simp [fetchData]
        | notOk => simp [fetchData]
        | ok fs frows? =>
          cases fs with
          | false => simp [fetchData]
          | true =>
            cases frows? with
            | none => simp [fetchData]
            | some rows => simp [fetchData]
      | true =>
        cases rows? with
        | none => simp [fetchData]
        | some rows => simp [fetchData]
  · rintro (rfl | rfl) <;> simp [fetchData]

/-- C4 witness: the amended theorem applied at a non-ok primary with a
succeeding fallback. -/
theorem c4_fetch_fallback_witness :
    fetchData FetchOutcome.notOk (FetchOutcome.ok true (some [])) =
      { fallbackAttempted := false, errorSurfaced := true, rowsDelivered := none } :=
  (c4_fetch_fallback_amended FetchOutcome.notOk (FetchOutcome.ok true (some []))).2.1
    (Or.inr rfl)

/-- C5 counterexample: claim C5's normalization strips every character
outside [a-z0-9_], but the source's regex keeps the German letters
ä/ö/ü/ß.  On a key and pattern containing ü the source's resolver finds
the column while the claim's description does not. -/
theorem c5_counterexample :
    findColumn [("verfügbar", JsValue.num 7)] ["verfügbar"] = some (JsValue.num 7) ∧
    findColumnSpec [("verfügbar", JsValue.num 7)] ["verfügbar"] = none := by
  decide

/-- C5 (amended): findColumn returns the value of the first raw key, in
iteration order, whose normalized form — lower-cased and stripped to the
class [a-z0-9äöüß_], i.e. keeping the German letters — contains some
pattern as a substring (checking, for each key, every pattern before moving
on), and returns none exactly when no key matches; it is a total function,
so it never throws. -/
theorem c5_findColumn_amended (row : RawProductRow) (patterns : List String) :
    findColumn row patterns =
      (row.find? (fun kv => keyMatches patterns kv.1)).map (fun kv => kv.2) ∧
    ((∀ kv ∈ row, keyMatches patterns kv.1 = false) → findColumn row patterns = none) := by
  have hchar : findColumn row patterns =
      (row.find? (fun kv => keyMatches patterns kv.1)).map (fun kv => kv.2) := by
    induction row with
    | nil => rfl
    | cons kv rest ih =>
      by_cases h : keyMatches patterns kv.1
      · simp [findColumn, List.find?_cons, h, ih]
      · simp [findColumn, List.find?_cons, h, ih]
  refine ⟨hchar, fun h => ?_⟩
  rw [hchar, List.find?_eq_none.mpr (fun kv hkv => by simp [h kv hkv]), Option.map_none']

/-- C5 witness: the amended theorem's no-match clause applied to a concrete
row with no matching key. -/
theorem c5_findColumn_witness :
    findColumn [("foo", JsValue.num 1)] ["bar"] = none :=
  (c5_findColumn_amended [("foo", JsValue.num 1)] ["bar"]).2 (by decide)

/-- C10: on a missing (`none`) or empty row list, `parseProductData` returns
the all-zero default: every list field empty, every metric zero, and a ROAS
block with zero spend/revenue/ROAS and empty suggestion and alert lists;
being a total function, it never throws. -/
theorem c10_empty_input :
    parseProductData none = defaultAnalyticsData ∧
    parseProductData (some []) = defaultAnalyticsData ∧
    (parseProductData (some [])).products = [] ∧
    (parseProductData (some [])).topProducts = [] ∧
    (parseProductData (some [])).slowProducts = [] ∧
    (parseProductData (some [])).criticalAlerts = [] ∧
    (parseProductData (some [])).seoOpportunities = [] ∧
    (parseProductData (some [])).seoWaste = [] ∧
    (parseProductData (some [])).shopAnalytics = [] ∧
    (parseProductData (some [])).metrics =
      { totalProducts := 0, totalRevenue := 0, totalUnitsSold := 0, avgPrice := 0,
        healthyStock := 0, warningStock := 0, criticalStock := 0 } ∧
    (parseProductData (some [])).roasData.totalAdSpend = 0 ∧
    (parseProductData (some [])).roasData.totalRevenue = 0 ∧
    (parseProductData (some [])).roasData.overallROAS = 0 ∧
    (parseProductData (some [])).roasData.suggestions = [] ∧
    (parseProductData (some [])).roasData.alerts = [] :=
  ⟨rfl, rfl, rfl, rfl, rfl, rfl, rfl, rfl, rfl, rfl, rfl, rfl, rfl, rfl, rfl⟩

/-- Stable insertion permutes: inserting is consing up to permutation. -/
theorem stableInsert_perm (le : α → α → Bool) (a : α) (l : List α) :
    (stableInsert le a l).Perm (a :: l) := by
  induction l with
  | nil => simp [stableInsert]
  | cons b rest ih =>
    by_cases h : le a b
    · simp [stableInsert, h]
    · simp only [stableInsert, if_neg h]
      exact (ih.cons b).trans (List.Perm.swap a b rest)

/-- The sort model permutes its input. -/
theorem jsSortBy_perm (le : α → α → Bool) (l : List α) : (jsSortBy le l).Perm l := by
  induction l with
  | nil => simp [jsSortBy]
  | cons a rest ih => exact (stableInsert_perm le a (jsSortBy le rest)).trans (ih.cons a)

/-- C8 counterexample: with two products whose top profitable product has
only `warning` stock, the source emits NO increase-budget suggestion even
though the top-3 profitable list is non-empty — the claim's "one suggestion
for each of the top 3 profitable products" fails because of the
healthy-stock guard. -/
theorem c8_counterexample :
    ((generateROASData [warningTopProduct, smallProduct]).suggestions.filter
        (fun s => s.type == ROASSuggestionType.increase_budget)).length = 0 ∧
    ((generateROASData [warningTopProduct, smallProduct]).profitableProducts.take 3).length
      = 1 := by
  constructor <;>
    norm_num +decide [generateROASData, warningTopProduct, smallProduct, jsSortBy,
      stableInsert, mkIncreaseSuggestion, mkDecreaseSuggestion, mkRestockSuggestion,
      mkBundleSuggestion]

/-- C8 (amended): generateROASData emits one increase-budget suggestion for
each of the top 3 profitable products WHOSE STOCK STATUS IS HEALTHY (the
source guards on `stockStatus === 'healthy'`), each carrying an impact of
20% of that product's revenue (rounded); the profitable list holds only
products with revenue strictly above average and is capped at 10. -/
theorem c8_increase_budget_amended (products : List ProductData) :
    ((generateROASData products).suggestions.filter
        (fun s => s.type == ROASSuggestionType.increase_budget) =
      (((generateROASData products).profitableProducts.take 3).filter
        (fun p => p.stockStatus == StockStatus.healthy)).map mkIncreaseSuggestion) ∧
    (∀ s ∈ (generateROASData products).suggestions.filter
        (fun s => s.type == ROASSuggestionType.increase_budget),
      ∃ p ∈ ((generateROASData products).profitableProducts.take 3).filter
        (fun p => p.stockStatus == StockStatus.healthy),
        s.impactValue = some (jsRound (p.revenue * (2 / 10)))) ∧
    (∀ p ∈ (generateROASData products).profitableProducts,
      ((products.map (fun q => q.revenue)).sum / (products.length : ℚ)) < p.revenue) ∧
    (generateROASData products).profitableProducts.length ≤ 10 := by
  have hfil : (generateROASData products).suggestions.filter
      (fun s => s.type == ROASSuggestionType.increase_budget) =
      (((generateROASData products).profitableProducts.take 3).filter
        (fun p => p.stockStatus == StockStatus.healthy)).map mkIncreaseSuggestion := by
    simp only [generateROASData]
    simp [List.filter_append, List.filter_map, Function.comp, mkIncreaseSuggestion,
      mkDecreaseSuggestion, mkRestockSuggestion, mkBundleSuggestion]
    refine ⟨fun a ha => ?_, fun a ha => ?_, fun a ha => ?_⟩
    · obtain ⟨p, -, rfl⟩ := List.mem_map.mp (List.take_subset _ _ (List.take_subset _ _ ha))
      simp [mkDecreaseSuggestion]
    · obtain ⟨p, -, rfl⟩ := List.mem_map.mp (List.take_subset _ _ ha)
      simp [mkRestockSuggestion]
    · obtain ⟨p, -, rfl⟩ := List.mem_map.mp (List.take_subset _ _ ha)
      simp [mkBundleSuggestion]
  have hprof : (generateROASData products).profitableProducts =
      (jsSortBy (fun a b => decide (b.revenue ≤ a.revenue))
        (products.filter (fun p =>
          decide ((products.map (fun q => q.revenue)).sum / (products.length : ℚ)
            < p.revenue)))).take 10 := rfl
  refine ⟨hfil, ?_, ?_, ?_⟩
  · intro s hs
    rw [hfil] at hs
    obtain ⟨p, hp, rfl⟩ := List.mem_map.mp hs
    exact ⟨p, hp, rfl⟩
  · intro p hp
    rw [hprof] at hp
    have h1 := List.take_subset _ _ hp
    have h2 := ((jsSortBy_perm _ _).mem_iff).mp h1
    have h3 := (List.mem_filter.mp h2).2
    exact of_decide_eq_true h3
  · rw [hprof, List.length_take]
    exact min_le_left _ _

/-- Evaluation: the concrete two-product set has exactly one product in its
profitable list, and it has above-average revenue. -/
theorem c8_profitable_eval :
    warningTopProduct ∈
      (generateROASData [warningTopProduct, smallProduct]).profitableProducts := by
  norm_num +decide [generateROASData, warningTopProduct, smallProduct, jsSortBy, stableInsert]

/-- C8 witness: the amended theorem applied to the concrete two-product set,
its above-average clause discharged at the profitable member. -/
theorem c8_increase_budget_witness :
    (([warningTopProduct, smallProduct].map (fun q => q.revenue)).sum
      / (([warningTopProduct, smallProduct] : List ProductData).length : ℚ))
      < warningTopProduct.revenue :=
  (c8_increase_budget_amended [warningTopProduct, smallProduct]).2.2.1
    warningTopProduct c8_profitable_eval

/-- One aggregation-fold step adds the folded row's contribution to any
additive projection that is compatible with `mkGroup` and `addTo`. -/
theorem sum_map_insertRaw {M : Type} [AddCommMonoid M] (f : AggGroup → M)
    (fp : RawProduct → M) (hAdd : ∀ g p, f (addTo g p) = f g + fp p)
    (hMk : ∀ p, f (mkGroup p) = fp p) (acc : List AggGroup) (p : RawProduct) :
    ((insertRaw acc p).map f).sum = (acc.map f).sum + fp p := by
  induction acc with
  | nil => simp [insertRaw, hMk]
  | cons g rest ih =>
    by_cases h : g.artikelBasis = p.artikelBasis
    · simp [insertRaw, h, hAdd, add_assoc, add_comm, add_left_comm]
    · simp [insertRaw, h, ih, add_assoc, add_comm, add_left_comm]

/-- The aggregation fold preserves additive projections, from any state. -/
theorem sum_map_aggregateAux {M : Type} [AddCommMonoid M] (f : AggGroup → M)
    (fp : RawProduct → M) (hAdd : ∀ g p, f (addTo g p) = f g + fp p)
    (hMk : ∀ p, f (mkGroup p) = fp p) :
    ∀ (rp : List RawProduct) (acc : List AggGroup),
      ((rp.foldl insertRaw acc).map f).sum = (acc.map f).sum + (rp.map fp).sum := by
  intro rp
  induction rp with
  | nil => intro acc; simp
  | cons p rest ih =>
    intro acc
    simp only [List.foldl_cons, List.map_cons, List.sum_cons]
    rw [ih, sum_map_insertRaw f fp hAdd hMk, add_assoc]

/-- The aggregation is sum-preserving for compatible projections. -/
theorem sum_map_aggregateRaw {M : Type} [AddCommMonoid M] (f : AggGroup → M)
    (fp : RawProduct → M) (hAdd : ∀ g p, f (addTo g p) = f g + fp p)
    (hMk : ∀ p, f (mkGroup p) = fp p) (rp : List RawProduct) :
    ((aggregateRaw rp).map f).sum = (rp.map fp).sum := by
  simpa using sum_map_aggregateAux f fp hAdd hMk rp []

/-- Mapping each element to 1 and summing counts the list. -/
theorem sum_map_one (l : List α) : (l.map (fun _ => (1 : ℕ))).sum = l.length := by
  induction l with
  | nil => rfl
  | cons a t ih => simp [ih, Nat.add_comm]

/-- C1 counterexample: a single raw row with non-empty base id and base name
but all-zero numerics is a filtered row (count 1), yet its group is dropped
by the noise filter, so the produced products' variationsCount sums to 0 —
the claimed partition equality fails on the final products list. -/
theorem c1_counterexample :
    ((parseProductData (some [zeroNoiseRow])).products.map
      (fun p => p.variationsCount)).sum ≠ (rawProducts [zeroNoiseRow]).length := by
  decide

/-- C1 (amended): the aggregation groups of `parseProductData` — BEFORE the
exclusion of all-zero noise groups — partition the filtered raw rows by base
id: variation counts sum to the number of filtered rows, and each numeric
field's sum over the groups equals its resolved sum over the filtered rows;
the final products list is the noise-filtered subset of these groups. -/
theorem c1_partition_amended (rows : List RawProductRow) :
    (((aggregateRaw (rawProducts rows)).map (fun g => g.variationsCount)).sum
        = (rawProducts rows).length) ∧
    (((aggregateRaw (rawProducts rows)).map (fun g => g.revenue)).sum
        = ((rawProducts rows).map (fun p => p.revenue)).sum) ∧
    (((aggregateRaw (rawProducts rows)).map (fun g => g.unitsSold)).sum
        = ((rawProducts rows).map (fun p => p.unitsSold)).sum) ∧
    (((aggregateRaw (rawProducts rows)).map (fun g => g.stockOnHand)).sum
        = ((rawProducts rows).map (fun p => p.stockOnHand)).sum) ∧
    (((aggregateRaw (rawProducts rows)).map (fun g => g.inOrders)).sum
        = ((rawProducts rows).map (fun p => p.inOrders)).sum) ∧
    (((aggregateRaw (rawProducts rows)).map (fun g => g.available)).sum
        = ((rawProducts rows).map (fun p => p.available)).sum) ∧
    ((parseProductData (some rows)).products =
      ((aggregateRaw (rawProducts rows)).filter
        (fun g => decide (0 < g.revenue) || decide (0 < g.unitsSold) ||
          decide (0 < g.stockOnHand))).map toProductData) := by
  refine ⟨?_, ?_, ?_, ?_, ?_, ?_, ?_⟩
  · rw [sum_map_aggregateRaw (fun g => g.variationsCount) (fun _ => 1)
      (fun g p => rfl) (fun p => rfl), sum_map_one]
  · exact sum_map_aggregateRaw (fun g => g.revenue) (fun p => p.revenue)
      (fun g p => rfl) (fun p => rfl) (rawProducts rows)
  · exact sum_map_aggregateRaw (fun g => g.unitsSold) (fun p => p.unitsSold)
      (fun g p => rfl) (fun p => rfl) (rawProducts rows)
  · exact sum_map_aggregateRaw (fun g => g.stockOnHand) (fun p => p.stockOnHand)
      (fun g p => rfl) (fun p => rfl) (rawProducts rows)
  · exact sum_map_aggregateRaw (fun g => g.inOrders) (fun p => p.inOrders)
      (fun g p => rfl) (fun p => rfl) (rawProducts rows)
  · exact sum_map_aggregateRaw (fun g => g.available) (fun p => p.available)
      (fun g p => rfl) (fun p => rfl) (rawProducts rows)
  · cases rows with
    | nil => rfl
    | cons r rs => rfl

/-- The (key, channel) pairs of the aggregation state: an update keeps every
pair unchanged (the update branch never touches `salesChannel`), a fresh key
appends its row's pair at the end. -/
theorem insertRaw_map_keyChannel (acc : List AggGroup) (p : RawProduct) :
    (insertRaw acc p).map (fun g => (g.artikelBasis, g.salesChannel)) =
      if acc.any (fun g => g.artikelBasis == p.artikelBasis) then
        acc.map (fun g => (g.artikelBasis, g.salesChannel))
      else
        acc.map (fun g => (g.artikelBasis, g.salesChannel)) ++
          [(p.artikelBasis, p.salesChannel)] := by
  induction acc with
  | nil => simp [insertRaw, mkGroup]
  | cons g rest ih =>
    by_cases h : g.artikelBasis = p.artikelBasis
    · simp [insertRaw, h, addTo]
    · cases hany : rest.any (fun g => g.artikelBasis == p.artikelBasis) <;>
        simp [insertRaw, h, ih, hany]

/-- The keys of the aggregation state, as a corollary of the pairs lemma. -/
theorem insertRaw_map_key (acc : List AggGroup) (p : RawProduct) :
    (insertRaw acc p).map (fun g => g.artikelBasis) =
      if acc.any (fun g => g.artikelBasis == p.artikelBasis) then
        acc.map (fun g => g.artikelBasis)
      else acc.map (fun g => g.artikelBasis) ++ [p.artikelBasis] := by
  have h := congrArg (List.map Prod.fst) (insertRaw_map_keyChannel acc p)
  simpa [List.map_map, Function.comp, apply_ite (List.map Prod.fst)] using h

/-- Every group produced by the aggregation fold (started from a state whose
pairs are accounted for) carries the channel label of the FIRST row of its
key group: the update branch never overwrites `salesChannel`. -/
theorem aggregate_channel_first :
    ∀ (rp : List RawProduct) (acc : List AggGroup) (g : AggGroup),
      g ∈ rp.foldl insertRaw acc →
      ((g.artikelBasis, g.salesChannel) ∈
        acc.map (fun x => (x.artikelBasis, x.salesChannel))) ∨
      (((rp.find? (fun p => p.artikelBasis == g.artikelBasis)).map
          (fun p => p.salesChannel) = some g.salesChannel) ∧
        g.artikelBasis ∉ acc.map (fun x => x.artikelBasis)) := by
  intro rp
  induction rp with
  | nil =>
    intro acc g hg
    exact Or.inl (List.mem_map.mpr ⟨g, hg, rfl⟩)
  | cons p rest ih =>
    intro acc g hg
    rcases ih (insertRaw acc p) g hg with hmem | ⟨hfind, hnot⟩
    · rw [insertRaw_map_keyChannel] at hmem
      by_cases hany : acc.any (fun x => x.artikelBasis == p.artikelBasis)
      · rw [if_pos hany] at hmem
        exact Or.inl hmem
      · rw [if_neg hany] at hmem
        rcases List.mem_append.mp hmem with h1 | h2
        · exact Or.inl h1
        · have hpair : (g.artikelBasis, g.salesChannel)
              = (p.artikelBasis, p.salesChannel) := by simpa using h2
          have hkey : g.artikelBasis = p.artikelBasis := congrArg Prod.fst hpair
          have hchan : g.salesChannel = p.salesChannel := congrArg Prod.snd hpair
          refine Or.inr ⟨?_, ?_⟩
          · have hbeq : (p.artikelBasis == g.artikelBasis) = true := by
              simp [hkey]
            simp [List.find?_cons, hbeq, hchan]
          · intro hmem'
            obtain ⟨x, hx, hxkey⟩ := List.mem_map.mp hmem'
            exact hany (List.any_eq_true.mpr ⟨x, hx, by simp [hxkey, hkey]⟩)
    · have hpkey : p.artikelBasis ∈ (insertRaw acc p).map (fun x => x.artikelBasis) := by
        rw [insertRaw_map_key]
        by_cases hany : acc.any (fun x => x.artikelBasis == p.artikelBasis)
        · rw [if_pos hany]
          obtain ⟨x, hx, hxkey⟩ := List.any_eq_true.mp hany
          exact List.mem_map.mpr ⟨x, hx, by simpa using hxkey⟩
        · rw [if_neg hany]
          exact List.mem_append.mpr (Or.inr (by simp))
      have hsub : acc.map (fun x => x.artikelBasis)
          ⊆ (insertRaw acc p).map (fun x => x.artikelBasis) := by
        rw [insertRaw_map_key]
        by_cases hany : acc.any (fun x => x.artikelBasis == p.artikelBasis)
        · rw [if_pos hany]
          exact List.Subset.refl _
        · rw [if_neg hany]
          exact List.subset_append_left _ _
      have hne : g.artikelBasis ≠ p.artikelBasis := by
        intro hEq
        exact hnot (hEq ▸ hpkey)
      have hbeq : (p.artikelBasis == g.artikelBasis) = false :=
        beq_eq_false_iff_ne.mpr (fun h => hne h.symm)
      refine Or.inr ⟨?_, fun hmem' => hnot (hsub hmem')⟩
      simpa [List.find?_cons, hbeq] using hfind

/-- Evaluation: resolving C3's first row yields its literal resolved form
(`available` is the one field needing `0 - 0 = 0`, beyond kernel reduction
of rationals). -/
theorem resolveRow_channelRowX : resolveRow channelRowX = channelResolvedX := by
  simp only [resolveRow, channelRowX, channelResolvedX]
  rw [RawProduct.mk.injEq]
  refine ⟨by decide, by decide, by decide, by decide, by decide, by decide, by decide,
    by decide, ?_, by decide⟩
  have ha : findColumn [("Artikel_Basis", JsValue.str "A"), ("Produkt_Basis", JsValue.str "P"),
      ("Umsatz", JsValue.num 1), ("Shop", JsValue.str "X")]
      ["verfügbar", "verfugbar", "available", "frei"] = none := by decide
  have hs : jsNumber (jsOrDefault (findColumn [("Artikel_Basis", JsValue.str "A"),
      ("Produkt_Basis", JsValue.str "P"), ("Umsatz", JsValue.num 1),
      ("Shop", JsValue.str "X")] ["auflager", "lager", "stock", "bestand", "lagerbestand"])
      (JsValue.num 0)) = 0 := by decide
  have hi : jsNumber (jsOrDefault (findColumn [("Artikel_Basis", JsValue.str "A"),
      ("Produkt_Basis", JsValue.str "P"), ("Umsatz", JsValue.num 1),
      ("Shop", JsValue.str "X")] ["inaufträgen", "inauftragen", "reserviert", "orders",
      "aufträge"]) (JsValue.num 0)) = 0 := by decide
  simp only [ha, hs, hi]
  norm_num

/-- Evaluation: resolving C3's second row yields its literal resolved form. -/
theorem resolveRow_channelRowY : resolveRow channelRowY = channelResolvedY := by
  simp only [resolveRow, channelRowY, channelResolvedY]
  rw [RawProduct.mk.injEq]
  refine ⟨by decide, by decide, by decide, by decide, by decide, by decide, by decide,
    by decide, ?_, by decide⟩
  have ha : findColumn [("Artikel_Basis", JsValue.str "A"), ("Produkt_Basis", JsValue.str "P"),
      ("Umsatz", JsValue.num 1), ("Shop", JsValue.str "Y")]
      ["verfügbar", "verfugbar", "available", "frei"] = none := by decide
  have hs : jsNumber (jsOrDefault (findColumn [("Artikel_Basis", JsValue.str "A"),
      ("Produkt_Basis", JsValue.str "P"), ("Umsatz", JsValue.num 1),
      ("Shop", JsValue.str "Y")] ["auflager", "lager", "stock", "bestand", "lagerbestand"])
      (JsValue.num 0)) = 0 := by decide
  have hi : jsNumber (jsOrDefault (findColumn [("Artikel_Basis", JsValue.str "A"),
      ("Produkt_Basis", JsValue.str "P"), ("Umsatz", JsValue.num 1),
      ("Shop", JsValue.str "Y")] ["inaufträgen", "inauftragen", "reserviert", "orders",
      "aufträge"]) (JsValue.num 0)) = 0 := by decide
  simp only [ha, hs, hi]
  norm_num

/-- Evaluation: the filtered resolved rows of C3's two-row input. -/
theorem rawProducts_channelRows :
    rawProducts [channelRowX, channelRowY] = [channelResolvedX, channelResolvedY] := by
  have h : rawProducts [channelRowX, channelRowY]
      = [channelResolvedX, channelResolvedY].filter
        (fun p => decide (p.artikelBasis ≠ "") && decide (p.produktBasis ≠ "")) := by
    simp only [rawProducts, List.map_cons, List.map_nil, resolveRow_channelRowX,
      resolveRow_channelRowY]
  rw [h]
  decide

/-- Evaluation: C3's two rows fold into exactly the expected single
aggregated product. -/
theorem c3_products_eval :
    (parseProductData (some [channelRowX, channelRowY])).products = [channelProductXY] := by
  have hprod : (parseProductData (some [channelRowX, channelRowY])).products
      = aggregatedProducts [channelRowX, channelRowY] := rfl
  rw [hprod]
  simp only [aggregatedProducts, rawProducts_channelRows, aggregateRaw, List.foldl_cons,
    List.foldl_nil]
  norm_num +decide [insertRaw, mkGroup, addTo, toProductData, getStockStatus,
    channelResolvedX, channelResolvedY, channelProductXY, List.filter_cons]

/-- C3 counterexample: two rows with the same base id, channel X then
channel Y, fold into one product whose `salesChannel` is "X" — the FIRST
row's label — while the last row of the group carries "Y"; the claimed
last-write-wins behaviour fails. -/
theorem c3_counterexample :
    ((parseProductData (some [channelRowX, channelRowY])).products.map
      (fun p => p.salesChannel)) = ["X"] ∧
    (((rawProducts [channelRowX, channelRowY]).map
      (fun p => p.salesChannel)).getLast? = some "Y") := by
  constructor
  · rw [c3_products_eval]
    decide
  · rw [rawProducts_channelRows]
    decide

/-- C3 (amended): for every group of raw rows folded into one
CanonicalProduct, the product's `salesChannel` equals the channel label of
the FIRST row of that group in input order (first-write-wins: the update
branch of the aggregation never touches `salesChannel`). -/
theorem c3_channel_amended (rows : List RawProductRow) :
    ∀ pd ∈ (parseProductData (some rows)).products,
      ((rawProducts rows).find? (fun p => p.artikelBasis == pd.artikelBasis)).map
        (fun p => p.salesChannel) = some pd.salesChannel := by
  intro pd hpd
  have hprod : (parseProductData (some rows)).products = aggregatedProducts rows := by
    cases rows with
    | nil => rfl
    | cons r rs => rfl
  rw [hprod] at hpd
  obtain ⟨g, hgmem, rfl⟩ := List.mem_map.mp hpd
  have hg : g ∈ aggregateRaw (rawProducts rows) := List.mem_of_mem_filter hgmem
  rcases aggregate_channel_first (rawProducts rows) [] g hg with h | ⟨hfind, -⟩
  · simp at h
  · simpa [toProductData] using hfind

/-- C3 witness: the amended theorem applied to the concrete two-row input at
its aggregated product. -/
theorem c3_channel_witness :
    ((rawProducts [channelRowX, channelRowY]).find?
      (fun p => p.artikelBasis == channelProductXY.artikelBasis)).map
      (fun p => p.salesChannel) = some channelProductXY.salesChannel :=
  c3_channel_amended [channelRowX, channelRowY] channelProductXY
    (c3_products_eval ▸ List.mem_singleton.mpr rfl)

/-- Summing `revenue / T * c` over shop groups factors through the revenue
sum. -/
theorem sum_map_div_mul (l : List ShopGroup) (T c : ℚ) :
    (l.map (fun g => g.revenue / T * c)).sum
      = (l.map (fun g => g.revenue)).sum / T * c := by
  induction l with
  | nil => simp
  | cons g rest ih => simp [ih, add_div, add_mul]

/-- C9: whenever every per-channel revenue is non-negative and the total
revenue is positive, every entry's percentageOfTotal is its channel revenue
over the total times 100, and the percentages sum to exactly 100. -/
theorem c9_shop_percentages (rows : List RawProductRow)
    (hnn : ∀ g ∈ shopFold rows, 0 ≤ g.revenue)
    (hpos : 0 < ((shopFold rows).map (fun g => g.revenue)).sum) :
    (((generateShopAnalytics rows).map (fun e => e.percentageOfTotal)).sum = 100) ∧
    (∀ e ∈ generateShopAnalytics rows,
      e.percentageOfTotal
        = e.totalRevenue / ((shopFold rows).map (fun g => g.revenue)).sum * 100) := by
  have hT : ((shopFold rows).map (fun g => g.revenue)).sum ≠ 0 := ne_of_gt hpos
  have hdef : generateShopAnalytics rows =
      jsSortBy (fun a b => decide (b.totalRevenue ≤ a.totalRevenue))
        ((shopFold rows).map (fun g =>
          ({ shopName := g.shopName, totalRevenue := g.revenue, totalUnitsSold := g.units,
             productCount := g.products.length,
             avgRevenue := if 0 < g.products.length then
               g.revenue / (g.products.length : ℚ) else 0,
             percentageOfTotal := if 0 < ((shopFold rows).map (fun x => x.revenue)).sum then
               g.revenue / ((shopFold rows).map (fun x => x.revenue)).sum * 100 else 0 }
            : ShopAnalytics))) := rfl
  have hperm := jsSortBy_perm (fun (a b : ShopAnalytics) => decide (b.totalRevenue ≤ a.totalRevenue))
    ((shopFold rows).map (fun g =>
      ({ shopName := g.shopName, totalRevenue := g.revenue, totalUnitsSold := g.units,
         productCount := g.products.length,
         avgRevenue := if 0 < g.products.length then
           g.revenue / (g.products.length : ℚ) else 0,
         percentageOfTotal := if 0 < ((shopFold rows).map (fun x => x.revenue)).sum then
           g.revenue / ((shopFold rows).map (fun x => x.revenue)).sum * 100 else 0 }
        : ShopAnalytics)))
  constructor
  · rw [hdef, (hperm.map (fun e => e.percentageOfTotal)).sum_eq, List.map_map]
    have hfun : ((fun e => e.percentageOfTotal) ∘ (fun (g : ShopGroup) =>
        ({ shopName := g.shopName, totalRevenue := g.revenue, totalUnitsSold := g.units,
           productCount := g.products.length,
           avgRevenue := if 0 < g.products.length then
             g.revenue / (g.products.length : ℚ) else 0,
           percentageOfTotal := if 0 < ((shopFold rows).map (fun x => x.revenue)).sum then
             g.revenue / ((shopFold rows).map (fun x => x.revenue)).sum * 100 else 0 }
          : ShopAnalytics)))
        = fun g => g.revenue / ((shopFold rows).map (fun x => x.revenue)).sum * 100 := by
      funext g
      simp [Function.comp, if_pos hpos]
    rw [hfun, sum_map_div_mul, div_self hT, one_mul]
  · intro e he
    rw [hdef] at he
    have hemem := hperm.mem_iff.mp he
    obtain ⟨g, hg, rfl⟩ := List.mem_map.mp hemem
    simp [if_pos hpos]

/-- Evaluation: the one-row sample aggregates to a single eBay group with
revenue 10. -/
theorem shopFold_sample :
    shopFold shopSampleRows
      = [{ shopName := "eBay", revenue := 10, units := 0, products := [] }] := by
  have h1 : resolveShopRow [("Umsatz", JsValue.num 10)] =
      { shopName := "eBay", revenue := 10, units := 0, artikelBasis := "" } := by decide
  simp only [shopFold, shopSampleRows, List.foldl_cons, List.foldl_nil, h1, shopInsert,
    shopAddRow]
  norm_num

/-- Evaluation: the sample's per-channel revenues are non-negative. -/
theorem shopFold_sample_nonneg : ∀ g ∈ shopFold shopSampleRows, 0 ≤ g.revenue := by
  rw [shopFold_sample]
  intro g hg
  have hgeq := List.mem_singleton.mp hg
  subst hgeq
  norm_num

/-- Evaluation: the sample's total revenue is positive. -/
theorem shopFold_sample_pos :
    0 < ((shopFold shopSampleRows).map (fun g => g.revenue)).sum := by
  rw [shopFold_sample]
  norm_num

/-- C9 witness: the percentage theorem applied to the concrete one-row
sample. -/
theorem c9_shop_percentages_witness :
    ((generateShopAnalytics shopSampleRows).map (fun e => e.percentageOfTotal)).sum = 100 :=
  (c9_shop_percentages shopSampleRows shopFold_sample_nonneg shopFold_sample_pos).1
